import Mathlib

/-!
Verification development for the user-registration e2e suite and the
API-client factory of this repository.

Sources embedded:
- `src/ThePhasesOfCraftship/2_best_practice_first/assignment/end/packages/shared/src/api/index.ts`
  (the `createAPIClient` factory);
- `src/unnamed/part_000` (the jest-cucumber registration feature file: two
  concatenated test suites; lines 1-59 the first "Successful registration"
  test, lines 62-279 the feature with five scenarios).

The HTTP server, its route handlers, the persistence layer and the
email/marketing collaborators are outside the given sources; where a claim
depends on them they are modelled from the spec, and each such definition
carries a doc comment starting with `Modelled from the spec:`.
Network effects are embedded as data: an effectful computation is a pair of
the list of network calls it performs and its value.
-/

/-- Modelled from the spec: the registration command record (§3 "a plain
record describing a user-registration request (first name, last name,
username, email, marketing-opt-in flag)"). The `CreateUserCommand` dto
itself (`@dddforum/shared/src/api/users`) is not under `src/`. -/
structure CreateUserCommand where
  firstName : String
  lastName : String
  username : String
  email : String
  acceptsMarketingEmails : Bool
deriving DecidableEq, Repr

/-- Modelled from the spec: the user resource payload echoed by the API on
success (§8: "a defined `id`, and echoes back the submitted email, first
name, last name, and username"). -/
structure UserData where
  id : Nat
  email : String
  firstName : String
  lastName : String
  username : String
deriving DecidableEq, Repr

/-- Modelled from the spec: the API response envelope (§3/§6
"`{ success: boolean, data?: object, error?: string }`"). Absent fields on
the wire are `none`. -/
structure Envelope (α : Type) where
  success : Bool
  data : Option α
  error : Option String
deriving DecidableEq, Repr

/-- A success envelope: `success:true` with a data payload and no error. -/
def Envelope.ok {α : Type} (a : α) : Envelope α :=
  { success := true, data := some a, error := none }

/-- A failure envelope: `success:false` with an error discriminator and no
data. -/
def Envelope.err {α : Type} (e : String) : Envelope α :=
  { success := false, data := none, error := some e }

/-- Modelled from the spec: the process-wide backend state visible to the
harness (§4.2/§6): the stored users, the id counter, and the two spy
counters (email service `sendMail`, marketing service `addEmailToList`)
with call-count introspection. -/
structure SystemState where
  users : List UserData
  nextId : Nat
  sendMailCount : Nat
  addEmailToListCount : Nat
deriving DecidableEq, Repr

/-- The fresh backend state: no users, ids from 1, spies at zero. -/
def initialState : SystemState :=
  { users := [], nextId := 1, sendMailCount := 0, addEmailToListCount := 0 }

/-- Modelled from the spec: command validation (§7/§8: "validation failure
(e.g., missing last name)", "missing required fields (e.g., empty last
name)"): every textual field is required to be nonempty. The server-side
validator is not under `src/`. -/
def isValidCommand (cmd : CreateUserCommand) : Bool :=
  cmd.firstName != "" && cmd.lastName != "" && cmd.username != "" && cmd.email != ""

/-- Whether some stored user already has the given email address. -/
def emailTaken (s : SystemState) (email : String) : Bool :=
  (s.users.find? (fun u => u.email == email)).isSome

/-- Modelled from the spec: the `register` operation behind
`POST /users/new` (§7/§8): invalid commands yield a failure envelope and no
side effects; a duplicate email is rejected ("registering with an email
already associated with an existing account must be rejected"); otherwise
the user is stored under a fresh id, the response echoes the submitted
fields, and exactly one `sendMail` call is made ("Every successful
registration triggers exactly one call to the send-mail capability; failed
registrations trigger zero calls"). The server implementation is not under
`src/`. -/
def registerUser (cmd : CreateUserCommand) (s : SystemState) :
    Envelope UserData × SystemState :=
  if isValidCommand cmd = true then
    if emailTaken s cmd.email = true then
      (Envelope.err "EmailAlreadyInUse", s)
    else
      let u : UserData :=
        { id := s.nextId, email := cmd.email, firstName := cmd.firstName,
          lastName := cmd.lastName, username := cmd.username }
      (Envelope.ok u,
       { s with users := u :: s.users, nextId := s.nextId + 1,
                sendMailCount := s.sendMailCount + 1 })
  else
    (Envelope.err "ValidationError", s)

/-- Modelled from the spec: the user-by-email lookup (§6/§7): a stored user
is returned in a success envelope; otherwise a `UserNotFound` failure
envelope ("not-found (`UserNotFound`)"). The server implementation is not
under `src/`. -/
def getUserByEmail (email : String) (s : SystemState) : Envelope UserData :=
  match s.users.find? (fun u => u.email == email) with
  | some u => Envelope.ok u
  | none => Envelope.err "UserNotFound"

/-- Modelled from the spec: the add-email-to-marketing-list operation (§6):
it succeeds and makes exactly one call on the marketing service spy. The
server implementation is not under `src/`. -/
def addEmailToList (email : String) (s : SystemState) :
    Envelope Unit × SystemState :=
  (Envelope.ok (), { s with addEmailToListCount := s.addEmailToListCount + 1 })

/-- A network call performed by a sub-client method: an HTTP round trip
identified by its verb and URL. -/
inductive NetworkCall where
  | get : String → NetworkCall
  | post : String → NetworkCall
deriving DecidableEq, Repr

/-- An effectful computation, embedded as data: the list of network calls
it performs paired with its value. -/
abbrev EffM (α : Type) : Type := List NetworkCall × α

/-- An effect-free computation: no network calls. -/
def pureEff {α : Type} (a : α) : EffM α := ([], a)

/-- Sequencing of effectful computations: the call traces concatenate in
execution order. -/
def bindEff {α β : Type} (x : EffM α) (f : α → EffM β) : EffM β :=
  (x.1 ++ (f x.2).1, (f x.2).2)

/-- A resource-scoped sub-client produced by a factory: it captures the
base URL its HTTP calls target. -/
structure SubClient where
  baseURL : String
deriving DecidableEq, Repr

/-- Modelled from the spec: the `createPostsAPI` factory imported by
`packages/shared/src/api/index.ts` (its module `./posts` is not under
`src/`). Per spec §4.1 construction is pure and synchronous, so the factory
performs no network calls and returns the posts sub-client capturing the
base URL. -/
def createPostsAPI (apiURL : String) : EffM SubClient :=
  pureEff (SubClient.mk apiURL)

/-- Modelled from the spec: the `createUsersAPI` factory imported by
`packages/shared/src/api/index.ts` (its module `./users` is not under
`src/`). Per spec §4.1 construction is pure and synchronous, so the factory
performs no network calls and returns the users sub-client capturing the
base URL. -/
def createUsersAPI (apiURL : String) : EffM SubClient :=
  pureEff (SubClient.mk apiURL)

/-- `createAPIClient` from
`src/.../packages/shared/src/api/index.ts` lines 6-11: it applies
`createPostsAPI` and `createUsersAPI` to its `apiURL` argument and returns
the object literal `{ posts: ..., users: ... }`, embedded as the
association list of the object's keys and sub-clients. -/
def createAPIClient (apiURL : String) : EffM (List (String × SubClient)) :=
  bindEff (createPostsAPI apiURL) (fun posts =>
  bindEff (createUsersAPI apiURL) (fun users =>
  pureEff [("posts", posts), ("users", users)]))

/-- Modelled from the spec: invoking the users sub-client's `register`
method (§4.1 "Each sub-client method takes a typed input, performs one HTTP
round trip, and returns the response envelope"; §6 `POST /users/new`). The
method body (`users.ts`) is not under `src/`. -/
def invokeRegister (sub : SubClient) (cmd : CreateUserCommand)
    (s : SystemState) : EffM (Envelope UserData × SystemState) :=
  ([NetworkCall.post (sub.baseURL ++ "/users/new")], registerUser cmd s)

/-- Modelled from the spec: invoking the users sub-client's
`getUserByEmail` method (§4.1 one HTTP round trip per invocation; §6 "GET
user-by-email lookup"). The method body (`users.ts`) is not under `src/`. -/
def invokeGetUserByEmail (sub : SubClient) (email : String)
    (s : SystemState) : EffM (Envelope UserData) :=
  ([NetworkCall.get (sub.baseURL ++ "/users?email=" ++ email)],
   getUserByEmail email s)

/-- Modelled from the spec: invoking the marketing sub-client's
`addEmailToList` method (§4.1 one HTTP round trip per invocation; §6 "POST
add-email-to-marketing-list"). No marketing module is under `src/`. -/
def invokeAddEmailToList (sub : SubClient) (email : String)
    (s : SystemState) : EffM (Envelope Unit × SystemState) :=
  ([NetworkCall.post (sub.baseURL ++ "/marketing/new")],
   addEmailToList email s)

/-- The feature-scoped variables of the second test suite
(`src/unnamed/part_000` lines 80-82): `createUserCommand` aside, the
response envelopes `createUserResponse` and `addEmailToListResponse` are
declared in the `defineFeature` callback, outside any single scenario, and
are shared by all five scenarios. `none` models a variable not yet
assigned (`undefined`). -/
structure FeatureVars where
  createUserResponse : Option (Envelope UserData)
  addEmailToListResponse : Option (Envelope Unit)
deriving DecidableEq, Repr

/-- The feature-scoped variables before any scenario ran: both response
variables are unassigned. -/
def initialVars : FeatureVars :=
  { createUserResponse := none, addEmailToListResponse := none }

/-- The spy reset performed by `afterEach` (`src/unnamed/part_000` lines
99-102): both spy counters return to zero; users and ids persist. -/
def resetSpies (s : SystemState) : SystemState :=
  { s with sendMailCount := 0, addEmailToListCount := 0 }

/-- The API calls of the scenario "Successful registration with marketing
emails accepted" (`src/unnamed/part_000` lines 119-122): its `when` step
registers the command and then calls `addEmailToList` with the command's
email, assigning both feature-scoped response variables. -/
def runAcceptingScenario (cmd : CreateUserCommand) (s : SystemState)
    (v : FeatureVars) : SystemState × FeatureVars :=
  let r1 := registerUser cmd s
  let r2 := addEmailToList cmd.email r1.2
  (r2.2,
   { v with createUserResponse := some r1.1,
            addEmailToListResponse := some r2.1 })

/-- The API calls of the scenario "Successful registration without
marketing emails accepted" (`src/unnamed/part_000` lines 168-170): its
`when` step only registers the command, assigning `createUserResponse`;
`addEmailToListResponse` is not assigned anywhere in this scenario, yet its
`and` step (lines 192-197) reads it. -/
def runDecliningScenario (cmd : CreateUserCommand) (s : SystemState)
    (v : FeatureVars) : SystemState × FeatureVars :=
  let r1 := registerUser cmd s
  (r1.2, { v with createUserResponse := some r1.1 })

/-- The assertions of the `then` step of the first suite's "Successful
registration" test (`src/unnamed/part_000` lines 42-49), as written there:
`data.id` is defined, `data.email` equals the input's email, and — lines
46-47 — `data.firstName` and `data.lastName` equal the input's EMAIL
(`toEqual(createUserInput.email)`), while `data.username` equals the
input's username. -/
def successfulRegistrationThenStep (resp : Envelope UserData)
    (input : CreateUserCommand) : Bool :=
  match resp.data with
  | none => false
  | some d =>
      d.email == input.email &&
      d.firstName == input.email &&
      d.lastName == input.email &&
      d.username == input.username

/-- The concrete input built by the first suite's `given` step
(`src/unnamed/part_000` lines 29-36): first name "Khalil", last name
"Stemmler", username "stemmlerjs", and a random email, here a concrete
representative. -/
def oldTestInput : CreateUserCommand :=
  { firstName := "Khalil", lastName := "Stemmler", username := "stemmlerjs",
    email := "khalil123@gmail.com", acceptsMarketingEmails := false }

/-- The envelope invariant of spec §3: when `success` is true the data
payload is present and the error absent; when `success` is false the error
is present. -/
def envelopeWellFormed {α : Type} (e : Envelope α) : Bool :=
  if e.success then e.data.isSome && e.error.isNone else e.error.isSome

lemma find_eq_none_of_not_emailTaken {s : SystemState} {e : String}
    (h : emailTaken s e = false) :
    s.users.find? (fun u => u.email == e) = none := by
  unfold emailTaken at h
  cases hf : s.users.find? (fun u => u.email == e) with
  | none => rfl
  | some u => rw [hf] at h; simp at h

lemma registerUser_addEmailToListCount (cmd : CreateUserCommand)
    (s : SystemState) :
    ((registerUser cmd s).2).addEmailToListCount = s.addEmailToListCount := by
  unfold registerUser
  split
  · split <;> rfl
  · rfl

/-- C1: the claim reads "for every valid registration command, the register
operation returns a response envelope with success=true, a defined id, and
data fields email, firstName, lastName, and username equal to the
corresponding fields of the submitted command". The register operation
(modelled from the spec) does echo the submitted fields — at the first
suite's concrete input the response carries firstName "Khalil" and lastName
"Stemmler" in a success envelope — yet the `then`-step assertions of
"Successful registration" (`src/unnamed/part_000` lines 46-47) compare
`data.firstName` and `data.lastName` against the command's EMAIL and
therefore evaluate to false on that very response: the first suite's
assertions contradict the claim, the sibling suite (lines 132-133) and the
spec. -/
theorem c1_old_test_assertions_contradict_echo :
    ((registerUser oldTestInput initialState).1.success = true
      ∧ (registerUser oldTestInput initialState).1.data.map UserData.firstName
          = some "Khalil"
      ∧ (registerUser oldTestInput initialState).1.data.map UserData.lastName
          = some "Stemmler"
      ∧ (registerUser oldTestInput initialState).1.data.map UserData.email
          = some "khalil123@gmail.com"
      ∧ (registerUser oldTestInput initialState).1.data.map UserData.username
          = some "stemmlerjs")
    ∧ successfulRegistrationThenStep (registerUser oldTestInput initialState).1
        oldTestInput = false := by
  decide

/-- C2: the claim reads "for every base URL, the client object returned by
createAPIClient exposes one sub-client per backend resource domain: users,
posts, and marketing (in particular, a marketing sub-client with an
addEmailToList method is present)". On the source of `api/index.ts` this is
false: at the base URL the test suite uses, the constructed client object
has exactly the keys "posts" and "users" and no "marketing" key, although
`src/unnamed/part_000` line 121 calls `apiClient.marketing.addEmailToList`. -/
theorem c2_no_marketing_subclient :
    ((createAPIClient "http://localhost:3000").2.map Prod.fst
        = ["posts", "users"])
    ∧ ((createAPIClient "http://localhost:3000").2.lookup "marketing"
        = none) := by
  decide

/-- C3: for every registration command with a missing required field, and a
store not already holding the command's email, the register operation
returns an envelope with success=false and a defined error, and a
subsequent getUserByEmail lookup with the command's email returns the
`UserNotFound` failure envelope. -/
theorem c3_invalid_registration (cmd : CreateUserCommand) (s : SystemState)
    (hinv : isValidCommand cmd = false)
    (hfresh : emailTaken s cmd.email = false) :
    (registerUser cmd s).1.success = false
    ∧ (registerUser cmd s).1.error.isSome = true
    ∧ getUserByEmail cmd.email (registerUser cmd s).2
        = Envelope.err "UserNotFound" := by
  unfold registerUser
  rw [hinv]
  simp [getUserByEmail, find_eq_none_of_not_emailTaken hfresh, Envelope.err]

def c3Input : CreateUserCommand :=
  { firstName := "Khalil", lastName := "", username := "khalil-user-3",
    email := "khalil303@gmail.com", acceptsMarketingEmails := false }

/-- Witness for C3 at the third scenario's concrete input (empty last name,
fresh email, fresh store). -/
theorem c3_invalid_registration_witness :
    (isValidCommand c3Input = false
      ∧ emailTaken initialState c3Input.email = false)
    ∧ ((registerUser c3Input initialState).1.success = false
      ∧ (registerUser c3Input initialState).1.error.isSome = true
      ∧ getUserByEmail c3Input.email (registerUser c3Input initialState).2
          = Envelope.err "UserNotFound") :=
  ⟨⟨by decide, by decide⟩,
   c3_invalid_registration c3Input initialState (by decide) (by decide)⟩

/-- C4: in the scenario accepting marketing emails, the marketing service's
addEmailToList spy records exactly one call (the scenario's explicit
`apiClient.marketing.addEmailToList` call; registration itself never
touches it), and in the scenario declining marketing emails it records
exactly zero calls. -/
theorem c4_marketing_call_counts (cmd : CreateUserCommand) (s : SystemState)
    (v : FeatureVars) :
    ((runAcceptingScenario cmd s v).1).addEmailToListCount
        = s.addEmailToListCount + 1
    ∧ ((runDecliningScenario cmd s v).1).addEmailToListCount
        = s.addEmailToListCount := by
  refine ⟨?_, ?_⟩
  · show ((addEmailToList cmd.email (registerUser cmd s).2).2).addEmailToListCount
        = s.addEmailToListCount + 1
    rw [addEmailToList]
    rw [registerUser_addEmailToListCount]
  · exact registerUser_addEmailToListCount cmd s

/-- C5: every registration adds one to the email service's sendMail spy
count exactly when it succeeds — zero when it fails — and the marketing
call leaves the sendMail count unchanged. -/
theorem c5_send_mail_counts (cmd : CreateUserCommand) (e : String)
    (s : SystemState) :
    ((registerUser cmd s).2).sendMailCount
        = s.sendMailCount
          + (if (registerUser cmd s).1.success = true then 1 else 0)
    ∧ ((addEmailToList e s).2).sendMailCount = s.sendMailCount := by
  refine ⟨?_, rfl⟩
  unfold registerUser
  split
  · split <;> rfl
  · rfl

def acceptingCmd : CreateUserCommand :=
  { firstName := "Khalil", lastName := "Stemmler", username := "khalil-user-1",
    email := "khalil101@gmail.com", acceptsMarketingEmails := true }

def decliningCmd : CreateUserCommand :=
  { firstName := "Khalil", lastName := "Stemmler", username := "khalil-user-2",
    email := "khalil202@gmail.com", acceptsMarketingEmails := false }

/-- The feature state after the first executed scenario (accepting
marketing emails) at its concrete input, from the fresh backend and
unassigned variables. -/
def featureRunPart1 : SystemState × FeatureVars :=
  runAcceptingScenario acceptingCmd initialState initialVars

/-- The feature state after the second executed scenario (declining
marketing emails) at its concrete input: spies reset by `afterEach`, but
the feature-scoped variables carried over from the first scenario. -/
def featureRunPart2 : SystemState × FeatureVars :=
  runDecliningScenario decliningCmd (resetSpies featureRunPart1.1)
    featureRunPart1.2

/-- C6 counterexample: the claim reads "every assertion in a scenario reads
only response envelopes produced by API calls made within that same
scenario, never a response left over from a previously executed scenario".
Running the two successful scenarios in source order at concrete inputs,
the declining scenario's marketing assertion (`src/unnamed/part_000` lines
192-197) reads `addEmailToListResponse`, which still holds the envelope
assigned by the PREVIOUS scenario's addEmailToList call — it is `some`
although the declining scenario made zero addEmailToList calls. -/
theorem c6_counterexample :
    featureRunPart2.2.addEmailToListResponse
        = featureRunPart1.2.addEmailToListResponse
    ∧ featureRunPart1.2.addEmailToListResponse = some (Envelope.ok ())
    ∧ featureRunPart2.1.addEmailToListCount = 0 := by
  decide

/-- C6 amended: the response variables are feature-scoped, not
scenario-local: the declining scenario assigns only `createUserResponse`,
so the `addEmailToListResponse` its marketing assertion reads is whatever
value the variable held before the scenario ran (the envelope left over
from the previously executed accepting scenario), and the scenario itself
makes no addEmailToList call. -/
theorem c6_amended (cmd : CreateUserCommand) (s : SystemState)
    (v : FeatureVars) :
    ((runDecliningScenario cmd s v).2).addEmailToListResponse
        = v.addEmailToListResponse
    ∧ ((runDecliningScenario cmd s v).1).addEmailToListCount
        = s.addEmailToListCount :=
  ⟨rfl, registerUser_addEmailToListCount cmd s⟩

/-- C7: every envelope produced by the API operations is well formed:
when success is true the data payload is present and the error absent, and
when success is false the error is present. -/
theorem c7_envelope_invariant (cmd : CreateUserCommand) (e : String)
    (s : SystemState) :
    envelopeWellFormed (registerUser cmd s).1 = true
    ∧ envelopeWellFormed (getUserByEmail e s) = true
    ∧ envelopeWellFormed (addEmailToList e s).1 = true := by
  refine ⟨?_, ?_, rfl⟩
  · unfold registerUser
    split
    · split <;> rfl
    · rfl
  · unfold getUserByEmail
    split <;> rfl

/-- C8: for every registration command whose email is already associated
with a stored account, the register operation rejects the registration: the
envelope has success=false, for a well-formed command the error is the
`EmailAlreadyInUse` discriminator, and the backend state is unchanged (no
user stored, no mail sent). -/
theorem c8_duplicate_email_rejected (cmd : CreateUserCommand)
    (s : SystemState) (h : emailTaken s cmd.email = true) :
    (registerUser cmd s).1.success = false
    ∧ (isValidCommand cmd = true →
        (registerUser cmd s).1.error = some "EmailAlreadyInUse")
    ∧ (registerUser cmd s).2 = s := by
  unfold registerUser
  by_cases hv : isValidCommand cmd = true
  · simp [hv, h, Envelope.err]
  · simp [hv, Envelope.err]

def seededUser : UserData :=
  { id := 1, email := "john1@example.com", firstName := "Khalil",
    lastName := "Stemmler", username := "khalil-user-4" }

/-- The backend state seeded by the database fixture with an existing user,
as in the "Account already created w/ email" scenario's `given` step. -/
def seededState : SystemState :=
  { users := [seededUser], nextId := 2, sendMailCount := 0,
    addEmailToListCount := 0 }

def duplicateCmd : CreateUserCommand :=
  { firstName := "John", lastName := "Doe", username := "khalil-user-5",
    email := "john1@example.com", acceptsMarketingEmails := false }

/-- Witness for C8: registering a valid command with the seeded user's
email is rejected with the `EmailAlreadyInUse` error and leaves the state
unchanged. -/
theorem c8_duplicate_email_rejected_witness :
    emailTaken seededState duplicateCmd.email = true
    ∧ ((registerUser duplicateCmd seededState).1.success = false
      ∧ (isValidCommand duplicateCmd = true →
          (registerUser duplicateCmd seededState).1.error
            = some "EmailAlreadyInUse")
      ∧ (registerUser duplicateCmd seededState).2 = seededState) :=
  ⟨by decide, c8_duplicate_email_rejected duplicateCmd seededState (by decide)⟩

/-- C9: for every base URL, constructing the client with createAPIClient
performs no network calls (its call trace is empty), while each sub-client
method invocation performs exactly one HTTP round trip. -/
theorem c9_construction_performs_no_network_calls (url : String) :
    (createAPIClient url).1 = []
    ∧ (∀ (sub : SubClient) (cmd : CreateUserCommand) (s : SystemState),
        (invokeRegister sub cmd s).1.length = 1)
    ∧ (∀ (sub : SubClient) (e : String) (s : SystemState),
        (invokeGetUserByEmail sub e s).1.length = 1)
    ∧ (∀ (sub : SubClient) (e : String) (s : SystemState),
        (invokeAddEmailToList sub e s).1.length = 1) :=
  ⟨rfl, fun _ _ _ => rfl, fun _ _ _ => rfl, fun _ _ _ => rfl⟩

/-- C10: createAPIClient passes its apiURL argument unchanged to each
sub-client factory it composes, so every sub-client of one client object
targets the given base URL. -/
theorem c10_subclients_share_base_url (url name : String) (sub : SubClient)
    (h : (name, sub) ∈ (createAPIClient url).2) : sub.baseURL = url := by
  simp [createAPIClient, bindEff, pureEff, createPostsAPI, createUsersAPI] at h
  rcases h with ⟨h1, h2⟩ | ⟨h1, h2⟩ <;> rw [h2]

/-- Witness for C10 at the base URL the test suite uses: the users
sub-client is a member of the constructed client and targets that URL. -/
theorem c10_subclients_share_base_url_witness :
    ("users", SubClient.mk "http://localhost:3000")
        ∈ (createAPIClient "http://localhost:3000").2
    ∧ (SubClient.mk "http://localhost:3000").baseURL
        = "http://localhost:3000" :=
  ⟨by decide,
   c10_subclients_share_base_url "http://localhost:3000" "users"
     (SubClient.mk "http://localhost:3000") (by decide)⟩
